import Mathlib

/-
Shallow embedding of the CodexOrb session-synchronization engine
(src/src/store/useAppStore.ts and the generate-code edge function,
src/supabase/functions/generate-code/index.ts), together with theorems
checking the natural-language specification against it.

Modelling conventions:
- Row identifiers (uuids) are strings; fresh ids are drawn from a `nextId`
  counter carried by the backing store.
- Timestamps are naturals, standing for the epoch milliseconds produced by
  `new Date(s).getTime()` / `now()`.
- Each supabase query that can fail is given an explicit Bool outcome flag
  (`true` = the query succeeded); the data returned by a succeeding query is
  computed from the modelled store contents.
- The jsonb `issues` payload is abstracted as a list of strings; the claims
  never inspect its elements.
- UI-only fields of the zustand state (darkMode, voiceInput, sidebarCollapsed)
  are omitted: no claim and no modelled operation touches them.
-/

/-- Session language tag (`'python' | 'javascript'`). -/
inductive Lang
  | python
  | javascript
deriving DecidableEq, Repr

/-- Message kind (`'user' | 'ai' | 'system'`). -/
inductive MsgType
  | user
  | ai
  | sys
deriving DecidableEq, Repr

/-- Participant role (`'owner' | 'developer' | 'designer' | 'qa' | 'viewer'`). -/
inductive Role
  | owner
  | developer
  | designer
  | qa
  | viewer
deriving DecidableEq, Repr

/-- `messages` row (interface Message, useAppStore.ts lines 6-14). -/
structure Message where
  id : String
  session_id : String
  user_id : String
  content : String
  type : MsgType
  created_at : Nat
deriving DecidableEq, Repr

/-- `code_files` row (interface CodeFile, useAppStore.ts lines 16-26). -/
structure CodeFile where
  id : String
  session_id : String
  filename : String
  content : String
  language : Lang
  created_at : Nat
  updated_at : Nat
  health_score : Int
  issues : List String
deriving DecidableEq, Repr

/-- `sessions` row (interface Session, useAppStore.ts lines 28-37). -/
structure Session where
  id : String
  name : String
  description : String
  owner_id : String
  created_at : Nat
  updated_at : Nat
  is_public : Bool
  language : Lang
deriving DecidableEq, Repr

/-- `session_participants` row (interface SessionParticipant, lines 39-46). -/
structure SessionParticipant where
  id : String
  session_id : String
  user_id : String
  role : Role
  joined_at : Nat
  last_active : Nat
deriving DecidableEq, Repr

/-- One realtime subscription channel, as opened by
`setupRealtimeSubscriptions` (lines 543-622).  Each channel is filtered to a
session id; the new-message handler additionally closes over the local user id
captured at attach time. -/
inductive Channel
  | messagesIns (sessionId : String) (localUser : String)
  | codeFilesIns (sessionId : String)
  | codeFilesUpd (sessionId : String)
deriving DecidableEq, Repr

/-- An inbound postgres-changes notification payload. -/
inductive Notification
  | newMessage (m : Message)
  | newCodeFile (f : CodeFile)
  | updatedCodeFile (f : CodeFile)
deriving DecidableEq, Repr

/-- The session id a notification is tagged with. -/
def Notification.sessionId : Notification → String
  | .newMessage m => m.session_id
  | .newCodeFile f => f.session_id
  | .updatedCodeFile f => f.session_id

/-- The zustand AppState fields relevant to the synchronization engine
(lines 48-59), plus the ambient `window.supabaseSubscriptions` array modelled
as the `channels` field. -/
structure AppState where
  user : Option String
  currentSession : Option Session
  sessions : List Session
  messages : List Message
  codeFiles : List CodeFile
  sessionParticipants : List SessionParticipant
  isLoading : Bool
  error : Option String
  channels : List Channel
deriving DecidableEq, Repr

/-- The backing store (supabase tables), plus a fresh-id counter and the
current time used for defaulted columns. -/
structure Store where
  sessions : List Session
  messages : List Message
  code_files : List CodeFile
  session_participants : List SessionParticipant
  nextId : Nat
  now : Nat
deriving DecidableEq, Repr

/-- JavaScript `s.toLowerCase()` on the ASCII range. -/
def jsToLowerCase (s : String) : String := String.mk (s.toList.map Char.toLower)

/-- `l` starts with `pat` (character-list prefix test). -/
def strStartsWith : List Char → List Char → Bool
  | _, [] => true
  | [], _ :: _ => false
  | a :: as, b :: bs => a == b && strStartsWith as bs

/-- `pat` occurs as a contiguous sublist of `s`. -/
def strContainsSub : List Char → List Char → Bool
  | s, pat =>
    if strStartsWith s pat then true
    else
      match s with
      | [] => false
      | _ :: rest => strContainsSub rest pat

/-- JavaScript `s.includes(sub)`. -/
def jsIncludes (s sub : String) : Bool := strContainsSub s.toList sub.toList

/-- Result record of the module-level mock generator (lines 640-941). -/
structure MockCode where
  filename : String
  content : String
  description : String
  issues : List String
deriving DecidableEq, Repr

def todoJsContent : String :=
  "// Todo App Implementation\nclass TodoApp \x7b\n  constructor() \x7b\n    this.todos = [];\n    this.nextId = 1;\n  \x7d\n\n  addTodo(text) \x7b\n    const todo = \x7b\n      id: this.nextId++,\n      text,\n      completed: false,\n      createdAt: new Date()\n    \x7d;\n    this.todos.push(todo);\n    return todo;\n  \x7d\n\n  toggleTodo(id) \x7b\n    const todo = this.todos.find(t => t.id === id);\n    if (todo) \x7b\n      todo.completed = !todo.completed;\n    \x7d\n    return todo;\n  \x7d\n\n  deleteTodo(id) \x7b\n    this.todos = this.todos.filter(t => t.id !== id);\n  \x7d\n\n  getTodos() \x7b\n    return this.todos;\n  \x7d\n\n  getCompletedTodos() \x7b\n    return this.todos.filter(t => t.completed);\n  \x7d\n\n  getPendingTodos() \x7b\n    return this.todos.filter(t => !t.completed);\n  \x7d\n\x7d\n\nexport default TodoApp;"

def todoPyContent : String :=
  "# Todo App Implementation\nfrom datetime import datetime\nfrom typing import List, Dict, Optional\n\nclass TodoApp:\n    def __init__(self):\n        self.todos: List[Dict] = []\n        self.next_id = 1\n    \n    def add_todo(self, text: str) -> Dict:\n        todo = \x7b\n            'id': self.next_id,\n            'text': text,\n            'completed': False,\n            'created_at': datetime.now()\n        \x7d\n        self.todos.append(todo)\n        self.next_id += 1\n        return todo\n    \n    def toggle_todo(self, todo_id: int) -> Optional[Dict]:\n        for todo in self.todos:\n            if todo['id'] == todo_id:\n                todo['completed'] = not todo['completed']\n                return todo\n        return None\n    \n    def delete_todo(self, todo_id: int) -> bool:\n        self.todos = [t for t in self.todos if t['id'] != todo_id]\n        return True\n    \n    def get_todos(self) -> List[Dict]:\n        return self.todos\n    \n    def get_completed_todos(self) -> List[Dict]:\n        return [t for t in self.todos if t['completed']]\n    \n    def get_pending_todos(self) -> List[Dict]:\n        return [t for t in self.todos if not t['completed']]\n\nif __name__ == \"__main__\":\n    app = TodoApp()\n    app.add_todo(\"Learn Python\")\n    app.add_todo(\"Build a todo app\")\n    print(f\"Total todos: \x7blen(app.get_todos())\x7d\")"

def calculatorJsContent : String :=
  "// Advanced Calculator Implementation\nclass Calculator \x7b\n  constructor() \x7b\n    this.history = [];\n  \x7d\n\n  add(a, b) \x7b\n    const result = a + b;\n    this.history.push(`$\x7ba\x7d + $\x7bb\x7d = $\x7bresult\x7d`);\n    return result;\n  \x7d\n\n  subtract(a, b) \x7b\n    const result = a - b;\n    this.history.push(`$\x7ba\x7d - $\x7bb\x7d = $\x7bresult\x7d`);\n    return result;\n  \x7d\n\n  multiply(a, b) \x7b\n    const result = a * b;\n    this.history.push(`$\x7ba\x7d × $\x7bb\x7d = $\x7bresult\x7d`);\n    return result;\n  \x7d\n\n  divide(a, b) \x7b\n    if (b === 0) \x7b\n      throw new Error('Division by zero is not allowed');\n    \x7d\n    const result = a / b;\n    this.history.push(`$\x7ba\x7d ÷ $\x7bb\x7d = $\x7bresult\x7d`);\n    return result;\n  \x7d\n\n  power(base, exponent) \x7b\n    const result = Math.pow(base, exponent);\n    this.history.push(`$\x7bbase\x7d^$\x7bexponent\x7d = $\x7bresult\x7d`);\n    return result;\n  \x7d\n\n  sqrt(number) \x7b\n    if (number < 0) \x7b\n      throw new Error('Cannot calculate square root of negative number');\n    \x7d\n    const result = Math.sqrt(number);\n    this.history.push(`√$\x7bnumber\x7d = $\x7bresult\x7d`);\n    return result;\n  \x7d\n\n  getHistory() \x7b\n    return this.history;\n  \x7d\n\n  clearHistory() \x7b\n    this.history = [];\n  \x7d\n\x7d\n\nexport default Calculator;"

def calculatorPyContent : String :=
  "# Advanced Calculator Implementation\nimport math\nfrom typing import List\n\nclass Calculator:\n    def __init__(self):\n        self.history: List[str] = []\n    \n    def add(self, a: float, b: float) -> float:\n        result = a + b\n        self.history.append(f\"\x7ba\x7d + \x7bb\x7d = \x7bresult\x7d\")\n        return result\n    \n    def subtract(self, a: float, b: float) -> float:\n        result = a - b\n        self.history.append(f\"\x7ba\x7d - \x7bb\x7d = \x7bresult\x7d\")\n        return result\n    \n    def multiply(self, a: float, b: float) -> float:\n        result = a * b\n        self.history.append(f\"\x7ba\x7d × \x7bb\x7d = \x7bresult\x7d\")\n        return result\n    \n    def divide(self, a: float, b: float) -> float:\n        if b == 0:\n            raise ValueError(\"Division by zero is not allowed\")\n        result = a / b\n        self.history.append(f\"\x7ba\x7d ÷ \x7bb\x7d = \x7bresult\x7d\")\n        return result\n    \n    def power(self, base: float, exponent: float) -> float:\n        result = math.pow(base, exponent)\n        self.history.append(f\"\x7bbase\x7d^\x7bexponent\x7d = \x7bresult\x7d\")\n        return result\n    \n    def sqrt(self, number: float) -> float:\n        if number < 0:\n            raise ValueError(\"Cannot calculate square root of negative number\")\n        result = math.sqrt(number)\n        self.history.append(f\"√\x7bnumber\x7d = \x7bresult\x7d\")\n        return result\n    \n    def get_history(self) -> List[str]:\n        return self.history\n    \n    def clear_history(self) -> None:\n        self.history = []\n\nif __name__ == \"__main__\":\n    calc = Calculator()\n    print(calc.add(10, 5))\n    print(calc.multiply(3, 4))\n    print(calc.get_history())"

def genericJsContent : String :=
  "// Generated JavaScript Application\nconsole.log('Welcome to CodexOrb!');\n\nclass Application \x7b\n  constructor(name) \x7b\n    this.name = name;\n    this.version = '1.0.0';\n    this.initialized = false;\n  \x7d\n\n  initialize() \x7b\n    console.log(`Initializing $\x7bthis.name\x7d v$\x7bthis.version\x7d`);\n    this.initialized = true;\n    return this;\n  \x7d\n\n  processInput(input) \x7b\n    if (!this.initialized) \x7b\n      throw new Error('Application not initialized');\n    \x7d\n    \n    return input.toString().toUpperCase();\n  \x7d\n\n  getStatus() \x7b\n    return \x7b\n      name: this.name,\n      version: this.version,\n      initialized: this.initialized,\n      timestamp: new Date().toISOString()\n    \x7d;\n  \x7d\n\x7d\n\n// Usage example\nconst app = new Application('CodexOrb Demo');\napp.initialize();\n\nconsole.log('Application Status:', app.getStatus());\nconsole.log('Processed Input:', app.processInput('hello world'));\n\nexport default Application;"

def genericPyContent : String :=
  "# Generated Python Application\nprint('Welcome to CodexOrb!')\n\nclass Application:\n    def __init__(self, name: str):\n        self.name = name\n        self.version = '1.0.0'\n        self.initialized = False\n    \n    def initialize(self):\n        print(f\"Initializing \x7bself.name\x7d v\x7bself.version\x7d\")\n        self.initialized = True\n        return self\n    \n    def process_input(self, input_data):\n        if not self.initialized:\n            raise RuntimeError('Application not initialized')\n        \n        return str(input_data).upper()\n    \n    def get_status(self):\n        from datetime import datetime\n        return \x7b\n            'name': self.name,\n            'version': self.version,\n            'initialized': self.initialized,\n            'timestamp': datetime.now().isoformat()\n        \x7d\n\n# Usage example\nif __name__ == \"__main__\":\n    app = Application('CodexOrb Demo')\n    app.initialize()\n    \n    print('Application Status:', app.get_status())\n    print('Processed Input:', app.process_input('hello world'))"

/-- The "todo"/"task" template (lines 645-738). -/
def todoTemplate (isJavaScript : Bool) : MockCode :=
  { filename := if isJavaScript then "TodoApp.js" else "todo_app.py"
    content := if isJavaScript then todoJsContent else todoPyContent
    description :=
      "a complete todo management system with add, toggle, delete, and filter functionality"
    issues := [] }

/-- The "calculator"/"math" template (lines 740-856). -/
def calculatorTemplate (isJavaScript : Bool) : MockCode :=
  { filename := if isJavaScript then "Calculator.js" else "calculator.py"
    content := if isJavaScript then calculatorJsContent else calculatorPyContent
    description :=
      "an advanced calculator with basic operations, power, square root, and calculation history"
    issues := [] }

/-- The default generic template (lines 858-940). -/
def genericTemplate (isJavaScript : Bool) : MockCode :=
  { filename := if isJavaScript then "app.js" else "app.py"
    content := if isJavaScript then genericJsContent else genericPyContent
    description := "a basic application structure with initialization and input processing"
    issues := [] }

/-- Module-level `generateMockCode(prompt, language)` (lines 640-941):
keyword matching on the lowercased prompt selects one of three canned
templates. -/
def generateMockCode (prompt : String) (language : Lang) : MockCode :=
  let isJavaScript := language == Lang.javascript
  let lowerPrompt := jsToLowerCase prompt
  if jsIncludes lowerPrompt "todo" || jsIncludes lowerPrompt "task" then
    todoTemplate isJavaScript
  else if jsIncludes lowerPrompt "calculator" || jsIncludes lowerPrompt "math" then
    calculatorTemplate isJavaScript
  else
    genericTemplate isJavaScript

/-- JavaScript `v || d` on the numeric-or-absent `analysis.healthScore` field:
an absent field and the falsy number 0 both yield the default. -/
def jsOrDefault (v : Option Int) (d : Int) : Int :=
  match v with
  | none => d
  | some x => if x = 0 then d else x

/-- Health-score computation of the generate-code edge function
(src/supabase/functions/generate-code/index.ts lines 127-140).
`analysisRespOk` is `analysisResponse.ok`; `parsedAnalysis` is `none` when
JSON-parsing the analysis body throws, and `some v` when it yields an object
whose (numeric or absent) `healthScore` field is `v`. -/
def computeHealthScore (analysisRespOk : Bool) (parsedAnalysis : Option (Option Int)) : Int :=
  if analysisRespOk then
    match parsedAnalysis with
    | none => 85
    | some healthScoreField => max 60 (min 100 (jsOrDefault healthScoreField 85))
  else 85

/-- `Math.floor(Math.random() * 40) + 60` (useAppStore.ts line 522); the
random draw `Math.floor(Math.random() * 40)`, a natural below 40, is passed
in as `r`. -/
def mockHealthScore (r : Nat) : Int := (r : Int) + 60

/-- `sessions.select().eq('id', sessionId).single()` (lines 225-229). -/
def findSession (store : Store) (sessionId : String) : Option Session :=
  store.sessions.find? (fun s => s.id == sessionId)

/-- Predicate matching a participant row for `(session_id, user_id)`; this is
both the `.eq` filter pair of the participant lookup and the upsert conflict
key `onConflict: 'session_id,user_id'`. -/
def participantKey (sessionId userId : String) (p : SessionParticipant) : Bool :=
  p.session_id == sessionId && p.user_id == userId

/-- `session_participants.select().eq('session_id', ...).eq('user_id', ...)
.single()` (lines 245-250). -/
def findParticipant (store : Store) (sessionId userId : String) : Option SessionParticipant :=
  store.session_participants.find? (participantKey sessionId userId)

/-- Conflict-update applied to one row by the participant upsert: a row
matching the key gets the provided columns (here only `role`); other rows
are untouched. -/
def upsertRow (sessionId userId : String) (p : SessionParticipant) : SessionParticipant :=
  if participantKey sessionId userId p then { p with role := Role.developer } else p

/-- The fresh row inserted by the participant upsert when no row matches the
conflict key; defaulted columns take the current time and a fresh id. -/
def newParticipantRow (store : Store) (sessionId userId : String) : SessionParticipant :=
  { id := toString store.nextId, session_id := sessionId, user_id := userId,
    role := Role.developer, joined_at := store.now, last_active := store.now }

/-- `session_participants.upsert({session_id, user_id, role:'developer'},
{onConflict:'session_id,user_id'})` (lines 259-267): on conflict the provided
columns are updated; otherwise a fresh row is inserted. -/
def upsertParticipant (store : Store) (sessionId userId : String) : Store :=
  if store.session_participants.any (participantKey sessionId userId) then
    { store with
        session_participants := store.session_participants.map (upsertRow sessionId userId) }
  else
    { store with
        session_participants :=
          store.session_participants ++ [newParticipantRow store sessionId userId]
        nextId := store.nextId + 1 }

namespace AppStore

/-- `cleanupSubscriptions` (lines 624-636): release every held channel;
a no-op when none are held. -/
def cleanupSubscriptions (st : AppState) : AppState := { st with channels := [] }

/-- The three channels opened for a session (lines 552-618). -/
def standardChannels (sessionId localUser : String) : List Channel :=
  [Channel.messagesIns sessionId localUser,
   Channel.codeFilesIns sessionId,
   Channel.codeFilesUpd sessionId]

/-- `setupRealtimeSubscriptions` (lines 543-622): requires an active session
and user, detaches any prior channels, then attaches the three channels
scoped to the current session's id. -/
def setupRealtimeSubscriptions (st : AppState) : AppState :=
  match st.currentSession, st.user with
  | some cs, some u =>
      let st1 := cleanupSubscriptions st
      { st1 with channels := standardChannels cs.id u }
  | _, _ => st

/-- Delivery of one notification through one channel: the channel's
postgres-changes filter (`session_id=eq.<filter>`) gates delivery, then the
handler registered in `setupRealtimeSubscriptions` runs against the current
state.  New-message handler: lines 562-569; new-code-file handler: lines
584-591; updated-code-file handler: lines 606-613. -/
def deliverToChannel (st : AppState) (c : Channel) (n : Notification) : AppState :=
  match c, n with
  | Channel.messagesIns sid localUser, Notification.newMessage m =>
      if m.session_id == sid then
        if m.user_id != localUser then { st with messages := st.messages ++ [m] } else st
      else st
  | Channel.codeFilesIns sid, Notification.newCodeFile f =>
      if f.session_id == sid then
        if st.codeFiles.any (fun g => g.id == f.id) then st
        else { st with codeFiles := f :: st.codeFiles }
      else st
  | Channel.codeFilesUpd sid, Notification.updatedCodeFile f =>
      if f.session_id == sid then
        { st with codeFiles := st.codeFiles.map (fun g => if g.id == f.id then f else g) }
      else st
  | _, _ => st

/-- An inbound notification is offered to every attached channel in order;
channels whose filter or event type does not match leave the state alone. -/
def applyNotification (st : AppState) (n : Notification) : AppState :=
  st.channels.foldl (fun s c => deliverToChannel s c n) st

/-- Descending-by-`updated_at` comparison used with `.order('updated_at',
{ascending:false})` and the client-side sort at line 151. -/
def updatedAtDesc (a b : Session) : Bool := decide (b.updated_at ≤ a.updated_at)

/-- `loadSessions` (lines 111-159).  `ownedOk` / `participantOk` are the
outcomes of the owned-sessions and participant-sessions queries; a thrown
query error is caught at line 154, recording the error and leaving the
session list untouched. -/
def loadSessions (ownedOk participantOk : Bool) (store : Store) (st : AppState) : AppState :=
  match st.user with
  | none => st
  | some u =>
    let st1 : AppState := { st with isLoading := true, error := none }
    if !ownedOk then { st1 with error := some "Failed to load sessions", isLoading := false }
    else
      let ownedSessions :=
        (store.sessions.filter (fun s => s.owner_id == u)).mergeSort updatedAtDesc
      if !participantOk then
        { st1 with error := some "Failed to load sessions", isLoading := false }
      else
        let participantSessions :=
          (store.session_participants.filter (fun p => p.user_id == u)).filterMap
            (fun p => findSession store p.session_id)
        let allSessions := participantSessions.foldl
          (fun acc s => if (acc.find? (fun t => t.id == s.id)).isNone then acc ++ [s] else acc)
          ownedSessions
        let sorted := allSessions.mergeSort updatedAtDesc
        { st1 with sessions := sorted, isLoading := false }

/-- Query outcomes of the fallible steps inside `joinSession`. -/
structure JoinOutcomes where
  sessionFetchOk : Bool
  upsertOk : Bool
  messagesOk : Bool
  filesOk : Bool
  participantsOk : Bool
deriving DecidableEq, Repr

/-- `joinSession(sessionId)` (lines 214-330).  Step order as in the source:
fetch session (fatal on failure), access check with participant re-check,
non-fatal participant upsert when the user is not the owner, bulk loads that
degrade to empty collections, detach of prior channels, atomic state swap,
re-attach of channels for the joined session. -/
def joinSession (ox : JoinOutcomes) (store : Store) (st : AppState) (sessionId : String) :
    Store × AppState :=
  match st.user with
  | none => (store, st)
  | some u =>
    let st1 : AppState := { st with isLoading := true, error := none }
    match (if ox.sessionFetchOk then findSession store sessionId else none) with
    | none =>
        (store, { st1 with error := some "Session not found or access denied", isLoading := false })
    | some session =>
      let canAccess := session.owner_id == u || session.is_public
      if !canAccess && (findParticipant store sessionId u).isNone then
        (store,
         { st1 with error := some "You do not have access to this session", isLoading := false })
      else
        let store1 :=
          if session.owner_id != u then
            (if ox.upsertOk then upsertParticipant store sessionId u else store)
          else store
        let msgs :=
          if ox.messagesOk then
            (store1.messages.filter (fun m => m.session_id == sessionId)).mergeSort
              (fun a b => decide (a.created_at ≤ b.created_at))
          else []
        let files :=
          if ox.filesOk then
            (store1.code_files.filter (fun f => f.session_id == sessionId)).mergeSort
              (fun a b => decide (b.updated_at ≤ a.updated_at))
          else []
        let parts :=
          if ox.participantsOk then
            store1.session_participants.filter (fun p => p.session_id == sessionId)
          else []
        let st2 := cleanupSubscriptions st1
        let st3 : AppState :=
          { st2 with currentSession := some session, messages := msgs, codeFiles := files,
                     sessionParticipants := parts, isLoading := false, error := none }
        (store1, setupRealtimeSubscriptions st3)

/-- `sendMessage(content, type)` (lines 332-394).  `insertOk` is the outcome
of the message insert.  On success the returned authoritative record is
appended optimistically only for `type === 'user'`; the out-of-band
chat-response invocation for user messages mutates no local state and its
failures are logged only, so it does not appear in the state transition.
The no-active-session guard returns with no mutation at all. -/
def sendMessage (insertOk : Bool) (store : Store) (st : AppState) (content : String)
    (type : MsgType) : Store × AppState × Except String Message :=
  match st.user, st.currentSession with
  | some u, some cs =>
    if insertOk then
      let data : Message :=
        { id := toString store.nextId, session_id := cs.id, user_id := u,
          content := content, type := type, created_at := store.now }
      let store1 := { store with messages := store.messages ++ [data],
                                 nextId := store.nextId + 1 }
      let st1 := if type == MsgType.user then { st with messages := st.messages ++ [data] }
                 else st
      (store1, st1, Except.ok data)
    else
      (store, { st with error := some "Failed to send message" },
       Except.error "Failed to send message")
  | _, _ => (store, st, Except.error "No active session")

/-- Store-level `generateMockCode(prompt)` action (lines 504-541): pick a
canned template from the prompt, insert a code file with a pseudo-random
health score in [60,100] (`r` is the draw `Math.floor(Math.random()*40)`),
then send the canned AI message through `sendMessage`. -/
def generateMockCodeAction (r : Nat) (fileInsertOk msgInsertOk : Bool) (store : Store)
    (st : AppState) (prompt : String) : Store × AppState :=
  match st.currentSession, st.user with
  | some cs, some _u =>
    let st1 : AppState := { st with isLoading := true }
    let mockCode := generateMockCode prompt cs.language
    if fileInsertOk then
      let file : CodeFile :=
        { id := toString store.nextId, session_id := cs.id, filename := mockCode.filename,
          content := mockCode.content, language := cs.language, created_at := store.now,
          updated_at := store.now, health_score := mockHealthScore r,
          issues := mockCode.issues }
      let store1 := { store with code_files := store.code_files ++ [file],
                                 nextId := store.nextId + 1 }
      let res := sendMessage msgInsertOk store1 st1
        ("I've generated " ++ mockCode.filename ++ " for you. The code includes "
          ++ mockCode.description)
        MsgType.ai
      (res.1, { res.2.1 with isLoading := false })
    else
      (store, { st1 with error := some "Failed to generate code", isLoading := false })
  | _, _ => (store, st)

/-- `generateCode(prompt)` (lines 396-449).  `edgeSucceeds` is true when the
generate-code edge function returns a 2xx response with `success:true`; in
that case files and messages surface only via the realtime subscriptions and
no local mutation happens here.  Any failure falls back to the mock
generator. -/
def generateCode (edgeSucceeds : Bool) (r : Nat) (fileInsertOk msgInsertOk : Bool)
    (store : Store) (st : AppState) (prompt : String) : Store × AppState :=
  match st.currentSession, st.user with
  | some _cs, some _u =>
    let st1 : AppState := { st with isLoading := true }
    if edgeSucceeds then
      (store, { st1 with isLoading := false })
    else
      let st2 : AppState := { st1 with error := some "Failed to generate code" }
      let res := generateMockCodeAction r fileInsertOk msgInsertOk store st2 prompt
      (res.1, { res.2 with isLoading := false })
  | _, _ => (store, st)

end AppStore

/-- Store part of a successful join: the non-fatal participant upsert,
attempted only when the joining user is not the owner and effective only
when the upsert query succeeds (lines 257-273). -/
def joinStore (ox : AppStore.JoinOutcomes) (store : Store) (sid u : String)
    (sess : Session) : Store :=
  if sess.owner_id != u then
    (if ox.upsertOk then upsertParticipant store sid u else store)
  else store

/-- State part of a successful join with outcomes `ox`: bulk loads that
degrade to empty collections, detach of prior channels, atomic swap, fresh
channels for the joined session (lines 275-322). -/
def joinView (ox : AppStore.JoinOutcomes) (store1 : Store) (st : AppState) (sid u : String)
    (sess : Session) : AppState :=
  { st with
      currentSession := some sess
      messages :=
        if ox.messagesOk then
          (store1.messages.filter (fun m => m.session_id == sid)).mergeSort
            (fun a b => decide (a.created_at ≤ b.created_at))
        else []
      codeFiles :=
        if ox.filesOk then
          (store1.code_files.filter (fun f => f.session_id == sid)).mergeSort
            (fun a b => decide (b.updated_at ≤ a.updated_at))
        else []
      sessionParticipants :=
        if ox.participantsOk then
          store1.session_participants.filter (fun p => p.session_id == sid)
        else []
      isLoading := false
      error := none
      channels := AppStore.standardChannels sess.id u }

/-- A private demo session owned by `owner1`. -/
def exSession : Session :=
  { id := "s1", name := "demo", description := "", owner_id := "owner1",
    created_at := 0, updated_at := 0, is_public := false, language := Lang.javascript }

/-- A client state for user `u1` with no active session data. -/
def exState : AppState :=
  { user := some "u1", currentSession := some exSession, sessions := [],
    messages := [], codeFiles := [], sessionParticipants := [],
    isLoading := false, error := none, channels := [] }

/-- A backing store holding only the demo session. -/
def exStore : Store :=
  { sessions := [exSession], messages := [], code_files := [],
    session_participants := [], nextId := 0, now := 0 }

/-- A state whose channels are the ones `setupRealtimeSubscriptions` opens
for session `s1` and user `u1`, with no local code files. -/
def exStateJoined : AppState :=
  { exState with channels := AppStore.standardChannels "s1" "u1" }

/-- An update notification payload for a code file absent locally. -/
def exUpdatedFile : CodeFile :=
  { id := "f1", session_id := "s1", filename := "a.js", content := "x",
    language := Lang.javascript, created_at := 0, updated_at := 1,
    health_score := 85, issues := [] }
/-- A public demo session. -/
def exPublicSession : Session :=
  { id := "s2", name := "open", description := "", owner_id := "owner1",
    created_at := 0, updated_at := 5, is_public := true, language := Lang.javascript }

/-- A store holding the private and the public demo sessions. -/
def exStore2 : Store :=
  { sessions := [exSession, exPublicSession], messages := [], code_files := [],
    session_participants := [], nextId := 0, now := 0 }

/-- A session owned by `u1`. -/
def exOwnSession : Session :=
  { id := "s3", name := "mine", description := "", owner_id := "u1",
    created_at := 0, updated_at := 10, is_public := false, language := Lang.python }

/-- A participant row registering `u1` in the public session. -/
def exParticipant : SessionParticipant :=
  { id := "p1", session_id := "s2", user_id := "u1", role := Role.developer,
    joined_at := 0, last_active := 0 }

/-- A store where `u1` owns one session and participates in another. -/
def exStore3 : Store :=
  { sessions := [exSession, exPublicSession, exOwnSession], messages := [],
    code_files := [], session_participants := [exParticipant], nextId := 0, now := 0 }

/-- Folding a function that fixes every element of the list is the identity. -/
theorem foldl_fix {α β : Type _} (f : β → α → β) (l : List α) (s : β)
    (h : ∀ c ∈ l, ∀ x, f x c = x) : l.foldl f s = s := by
  induction l generalizing s with
  | nil => rfl
  | cons c cs ih =>
      rw [List.foldl_cons, h c (List.mem_cons_self c cs)]
      exact ih s fun d hd x => h d (List.mem_cons_of_mem c hd) x

/-- A join whose session fetch succeeds but whose access check fails leaves
the store and every state field except the error flags untouched. -/
theorem joinSession_denied_eq (ox : AppStore.JoinOutcomes) (store : Store) (st : AppState)
    (sid u : String) (sess : Session)
    (hu : st.user = some u) (hfetch : ox.sessionFetchOk = true)
    (hfind : findSession store sid = some sess)
    (hden : (!(sess.owner_id == u || sess.is_public)
              && (findParticipant store sid u).isNone) = true) :
    AppStore.joinSession ox store st sid =
      (store, { st with isLoading := false,
                        error := some "You do not have access to this session" }) := by
  unfold AppStore.joinSession
  rw [hu]
  simp only [hfetch, if_true, hfind, hden]

/-- C1: for a private session whose owner is not `u` and with no participant
row for `(sid, u)`, `joinSession` fails with the access-denied error, creates
no participant row (the store is returned unchanged), and leaves
`currentSession`, `messages`, `codeFiles` and `sessionParticipants` exactly
as they were. -/
theorem joinSession_access_denied (ox : AppStore.JoinOutcomes) (store : Store) (st : AppState)
    (sid u : String) (sess : Session)
    (hu : st.user = some u) (hfetch : ox.sessionFetchOk = true)
    (hfind : findSession store sid = some sess)
    (hpriv : sess.is_public = false) (hown : sess.owner_id ≠ u)
    (hnopart : findParticipant store sid u = none) :
    AppStore.joinSession ox store st sid =
      (store, { st with isLoading := false,
                        error := some "You do not have access to this session" }) := by
  apply joinSession_denied_eq ox store st sid u sess hu hfetch hfind
  simp [hpriv, hnopart, beq_eq_false_iff_ne.mpr hown]

/-- C1 witness: user `u1` is neither owner nor participant of the private
demo session, and the join is denied without any mutation. -/
theorem joinSession_access_denied_witness :
    AppStore.joinSession ⟨true, true, true, true, true⟩ exStore exState "s1" =
      (exStore, { exState with
                  isLoading := false,
                  error := some "You do not have access to this session" }) :=
  joinSession_access_denied ⟨true, true, true, true, true⟩ exStore exState "s1" "u1" exSession
    rfl rfl rfl rfl (by decide) rfl

/-- C7: `sendMessage` with no authenticated user or no active session fails
with the validation error and performs no mutation at all: the store and the
whole client state are returned unchanged. -/
theorem sendMessage_no_active_session (insertOk : Bool) (store : Store) (st : AppState)
    (content : String) (type : MsgType)
    (h : st.user = none ∨ st.currentSession = none) :
    AppStore.sendMessage insertOk store st content type =
      (store, st, Except.error "No active session") := by
  rcases h with h | h
  · cases hcs : st.currentSession <;> simp [AppStore.sendMessage, h, hcs]
  · cases hu : st.user <;> simp [AppStore.sendMessage, h, hu]

/-- C7 witness: sending into a state with no active session. -/
theorem sendMessage_no_active_session_witness :
    AppStore.sendMessage true exStore { exState with currentSession := none } "hi" MsgType.user =
      (exStore, { exState with currentSession := none }, Except.error "No active session") :=
  sendMessage_no_active_session true exStore { exState with currentSession := none } "hi"
    MsgType.user (Or.inr rfl)

/-- C8: the health score the generation path stores always lies in [60,100]:
the edge function clamps or defaults any reported score (including a missing
field, the falsy 0 and an unparseable analysis body), and the mock fallback
draws its score directly in [60,99]. -/
theorem healthScore_in_range :
    (∀ (ok : Bool) (parsed : Option (Option Int)),
        60 ≤ computeHealthScore ok parsed ∧ computeHealthScore ok parsed ≤ 100) ∧
    (∀ r : Nat, r < 40 → 60 ≤ mockHealthScore r ∧ mockHealthScore r ≤ 100) := by
  constructor
  · intro ok parsed
    unfold computeHealthScore
    cases ok with
    | false => exact ⟨by norm_num, by norm_num⟩
    | true =>
        cases parsed with
        | none => exact ⟨by norm_num, by norm_num⟩
        | some v =>
            refine ⟨le_max_left 60 _, max_le (by norm_num) ?_⟩
            exact min_le_left 100 _
  · intro r hr
    unfold mockHealthScore
    omega

/-- C8 witness: an out-of-range reported score of 150 is clamped to [60,100],
and the mock draw 5 yields a score in [60,100]. -/
theorem healthScore_in_range_witness :
    (60 ≤ computeHealthScore true (some (some 150)) ∧
      computeHealthScore true (some (some 150)) ≤ 100) ∧
    (5 : Nat) < 40 ∧ (60 ≤ mockHealthScore 5 ∧ mockHealthScore 5 ≤ 100) :=
  ⟨healthScore_in_range.1 true (some (some 150)), by decide,
   healthScore_in_range.2 5 (by decide)⟩

/-- C4 counterexample: an "updated code file" notification whose id matches
no local file is NOT inserted — the handler maps over the existing
collection, so with an empty local collection the update is dropped. -/
theorem updatedCodeFile_not_inserted :
    exUpdatedFile ∉
      (AppStore.applyNotification exStateJoined
        (Notification.updatedCodeFile exUpdatedFile)).codeFiles := by decide

/-- C4 amended: an inbound "updated code file" notification replaces the
matching local entry by identifier; when no local file has that identifier
the collection is left unchanged (the update is dropped, not inserted). -/
theorem updatedCodeFile_replace_or_drop (st : AppState) (sid u : String) (f : CodeFile)
    (hch : st.channels = AppStore.standardChannels sid u)
    (hf : f.session_id = sid) :
    (AppStore.applyNotification st (Notification.updatedCodeFile f)).codeFiles
      = st.codeFiles.map (fun g => if g.id == f.id then f else g) ∧
    ((∀ g ∈ st.codeFiles, g.id ≠ f.id) →
      (AppStore.applyNotification st (Notification.updatedCodeFile f)).codeFiles
        = st.codeFiles) := by
  have hmain :
      (AppStore.applyNotification st (Notification.updatedCodeFile f)).codeFiles
        = st.codeFiles.map (fun g => if g.id == f.id then f else g) := by
    simp [AppStore.applyNotification, hch, AppStore.standardChannels,
      AppStore.deliverToChannel, hf]
  refine ⟨hmain, fun hnone => ?_⟩
  rw [hmain]
  conv_rhs => rw [← List.map_id st.codeFiles]
  apply List.map_congr_left
  intro g hg
  simp [beq_eq_false_iff_ne.mpr (hnone g hg)]

/-- C4 amended witness: the absent-id case on the concrete fixture. -/
theorem updatedCodeFile_replace_or_drop_witness :
    ((AppStore.applyNotification exStateJoined
        (Notification.updatedCodeFile exUpdatedFile)).codeFiles
      = exStateJoined.codeFiles.map
          (fun g => if g.id == exUpdatedFile.id then exUpdatedFile else g)) ∧
    ((∀ g ∈ exStateJoined.codeFiles, g.id ≠ exUpdatedFile.id) →
      (AppStore.applyNotification exStateJoined
          (Notification.updatedCodeFile exUpdatedFile)).codeFiles
        = exStateJoined.codeFiles) :=
  updatedCodeFile_replace_or_drop exStateJoined "s1" "u1" exUpdatedFile rfl rfl

/-- If every attached new-message channel was opened for local user `u`, a
message authored by `u` is discarded by every channel. -/
theorem applyNotification_discards_own (st : AppState) (m : Message) (u : String)
    (hm : m.user_id = u)
    (hch : ∀ sid lu, Channel.messagesIns sid lu ∈ st.channels → lu = u) :
    AppStore.applyNotification st (Notification.newMessage m) = st := by
  apply foldl_fix
  intro c hc x
  cases c with
  | messagesIns sid lu =>
      have hlu : lu = u := hch sid lu hc
      simp [AppStore.deliverToChannel, hlu, hm]
  | codeFilesIns sid => rfl
  | codeFilesUpd sid => rfl

/-- C2: a user message sent by the local user `u` is appended exactly once:
the optimistic append adds the authoritative record returned by the store
write, and redelivery of that record through the new-message channel is
discarded because its author is `u`, so the record's occurrence count in the
local sequence is exactly one. -/
theorem sendMessage_self_echo (store : Store) (st : AppState) (content u : String)
    (cs : Session) (hu : st.user = some u) (hcs : st.currentSession = some cs)
    (hch : ∀ sid lu, Channel.messagesIns sid lu ∈ st.channels → lu = u) :
    ∃ m : Message,
      (AppStore.sendMessage true store st content MsgType.user).2.2 = Except.ok m ∧
      m.user_id = u ∧
      (AppStore.sendMessage true store st content MsgType.user).2.1.messages
        = st.messages ++ [m] ∧
      AppStore.applyNotification
          (AppStore.sendMessage true store st content MsgType.user).2.1
          (Notification.newMessage m)
        = (AppStore.sendMessage true store st content MsgType.user).2.1 ∧
      (st.messages.count m = 0 →
        (AppStore.applyNotification
            (AppStore.sendMessage true store st content MsgType.user).2.1
            (Notification.newMessage m)).messages.count m = 1) := by
  refine ⟨{ id := toString store.nextId, session_id := cs.id, user_id := u,
            content := content, type := MsgType.user, created_at := store.now }, ?_, rfl, ?_, ?_, ?_⟩
  · simp [AppStore.sendMessage, hu, hcs]
  · simp [AppStore.sendMessage, hu, hcs]
  · apply applyNotification_discards_own _ _ u rfl
    intro sid lu hmem
    apply hch sid lu
    simpa [AppStore.sendMessage, hu, hcs] using hmem
  · intro h0
    rw [applyNotification_discards_own _ _ u rfl]
    · simp [AppStore.sendMessage, hu, hcs, List.count_append, h0]
    · intro sid lu hmem
      apply hch sid lu
      simpa [AppStore.sendMessage, hu, hcs] using hmem

/-- C2 witness: a concrete send into the joined fixture state. -/
theorem sendMessage_self_echo_witness :
    ∃ m : Message,
      (AppStore.sendMessage true exStore exStateJoined "hello" MsgType.user).2.2
        = Except.ok m ∧
      m.user_id = "u1" ∧
      (AppStore.sendMessage true exStore exStateJoined "hello" MsgType.user).2.1.messages
        = exStateJoined.messages ++ [m] ∧
      AppStore.applyNotification
          (AppStore.sendMessage true exStore exStateJoined "hello" MsgType.user).2.1
          (Notification.newMessage m)
        = (AppStore.sendMessage true exStore exStateJoined "hello" MsgType.user).2.1 ∧
      (exStateJoined.messages.count m = 0 →
        (AppStore.applyNotification
            (AppStore.sendMessage true exStore exStateJoined "hello" MsgType.user).2.1
            (Notification.newMessage m)).messages.count m = 1) :=
  sendMessage_self_echo exStore exStateJoined "hello" "u1" exSession rfl rfl
    (by
      intro sid lu hmem
      simp only [exStateJoined, exState, AppStore.standardChannels, List.mem_cons,
        List.mem_singleton, List.not_mem_nil, or_false] at hmem
      rcases hmem with h | h | h
      · injection h with h1 h2
      · exact absurd h (by simp)
      · exact absurd h (by simp))

/-- C10 (implicit): an AI-kind message sent through `sendMessage` by the
local user is never added to the sender's local sequence: the optimistic
append is skipped because the kind is not `user`, and the redelivered
notification is discarded because its author is the local user, so its
occurrence count stays zero. -/
theorem sendMessage_ai_never_local (store : Store) (st : AppState) (content u : String)
    (cs : Session) (hu : st.user = some u) (hcs : st.currentSession = some cs)
    (hch : ∀ sid lu, Channel.messagesIns sid lu ∈ st.channels → lu = u) :
    ∃ m : Message,
      (AppStore.sendMessage true store st content MsgType.ai).2.2 = Except.ok m ∧
      m.type = MsgType.ai ∧ m.user_id = u ∧
      (AppStore.sendMessage true store st content MsgType.ai).2.1.messages = st.messages ∧
      (AppStore.applyNotification
          (AppStore.sendMessage true store st content MsgType.ai).2.1
          (Notification.newMessage m)).messages = st.messages ∧
      (st.messages.count m = 0 →
        (AppStore.applyNotification
            (AppStore.sendMessage true store st content MsgType.ai).2.1
            (Notification.newMessage m)).messages.count m = 0) := by
  have hst1 : (AppStore.sendMessage true store st content MsgType.ai).2.1 = st := by
    simp [AppStore.sendMessage, hu, hcs]
  refine ⟨{ id := toString store.nextId, session_id := cs.id, user_id := u,
            content := content, type := MsgType.ai, created_at := store.now }, ?_, rfl, rfl, ?_, ?_, ?_⟩
  · simp [AppStore.sendMessage, hu, hcs]
  · rw [hst1]
  · rw [hst1, applyNotification_discards_own st _ u rfl hch]
  · intro h0
    rw [hst1, applyNotification_discards_own st _ u rfl hch]
    exact h0

/-- C10 witness: a concrete AI send into the joined fixture state. -/
theorem sendMessage_ai_never_local_witness :
    ∃ m : Message,
      (AppStore.sendMessage true exStore exStateJoined "done" MsgType.ai).2.2
        = Except.ok m ∧
      m.type = MsgType.ai ∧ m.user_id = "u1" ∧
      (AppStore.sendMessage true exStore exStateJoined "done" MsgType.ai).2.1.messages
        = exStateJoined.messages ∧
      (AppStore.applyNotification
          (AppStore.sendMessage true exStore exStateJoined "done" MsgType.ai).2.1
          (Notification.newMessage m)).messages = exStateJoined.messages ∧
      (exStateJoined.messages.count m = 0 →
        (AppStore.applyNotification
            (AppStore.sendMessage true exStore exStateJoined "done" MsgType.ai).2.1
            (Notification.newMessage m)).messages.count m = 0) :=
  sendMessage_ai_never_local exStore exStateJoined "done" "u1" exSession rfl rfl
    (by
      intro sid lu hmem
      simp only [exStateJoined, exState, AppStore.standardChannels, List.mem_cons,
        List.mem_singleton, List.not_mem_nil, or_false] at hmem
      rcases hmem with h | h | h
      · injection h with h1 h2
      · exact absurd h (by simp)
      · exact absurd h (by simp))

/-- A join whose session fetch succeeds and whose access check passes
performs the (conditional) participant upsert and installs the freshly
loaded view with channels scoped to the joined session. -/
theorem joinSession_success_eq (ox : AppStore.JoinOutcomes) (store : Store) (st : AppState)
    (sid u : String) (sess : Session)
    (hu : st.user = some u) (hfetch : ox.sessionFetchOk = true)
    (hfind : findSession store sid = some sess)
    (hden : (!(sess.owner_id == u || sess.is_public)
              && (findParticipant store sid u).isNone) = false) :
    AppStore.joinSession ox store st sid =
      (joinStore ox store sid u sess,
       joinView ox (joinStore ox store sid u sess) st sid u sess) := by
  unfold AppStore.joinSession
  rw [hu]
  simp only [hfetch, if_true, hfind, hden, Bool.false_eq_true, if_false]
  simp only [joinStore, joinView, AppStore.setupRealtimeSubscriptions,
    AppStore.cleanupSubscriptions, hu]

/-- C5: after a successful join of session B, the attached channels are
exactly the three channels scoped to B's identifier, so a notification
tagged with any other session identifier (in particular the previously
active session A's) is never applied to the active state. -/
theorem joinSession_channel_exclusivity (ox : AppStore.JoinOutcomes) (store : Store)
    (st : AppState) (sidB u oldSid : String) (sessB : Session)
    (hu : st.user = some u) (hfetch : ox.sessionFetchOk = true)
    (hfind : findSession store sidB = some sessB)
    (hacc : sessB.owner_id = u ∨ sessB.is_public = true ∨
            (findParticipant store sidB u).isSome = true) :
    (AppStore.joinSession ox store st sidB).2.channels
        = AppStore.standardChannels sessB.id u ∧
    ∀ n : Notification, n.sessionId = oldSid → oldSid ≠ sessB.id →
      AppStore.applyNotification (AppStore.joinSession ox store st sidB).2 n
        = (AppStore.joinSession ox store st sidB).2 := by
  have hden : (!(sessB.owner_id == u || sessB.is_public)
                && (findParticipant store sidB u).isNone) = false := by
    rcases hacc with h | h | h
    · simp [h]
    · simp [h]
    · cases hp : findParticipant store sidB u with
      | none => rw [hp] at h; simp at h
      | some p => simp [hp]
  rw [joinSession_success_eq ox store st sidB u sessB hu hfetch hfind hden]
  refine ⟨rfl, ?_⟩
  intro n hn hne
  apply foldl_fix
  intro c hc x
  have hmem : c ∈ AppStore.standardChannels sessB.id u := hc
  have hsid : ∀ m : String, m = oldSid → (m == sessB.id) = false := by
    intro m hm
    exact beq_eq_false_iff_ne.mpr (hm ▸ hne)
  simp only [AppStore.standardChannels, List.mem_cons, List.not_mem_nil, or_false] at hmem
  rcases hmem with rfl | rfl | rfl
  · cases n with
    | newMessage m => simp [AppStore.deliverToChannel, hsid m.session_id hn]
    | newCodeFile f => rfl
    | updatedCodeFile f => rfl
  · cases n with
    | newMessage m => rfl
    | newCodeFile f => simp [AppStore.deliverToChannel, hsid f.session_id hn]
    | updatedCodeFile f => rfl
  · cases n with
    | newMessage m => rfl
    | newCodeFile f => rfl
    | updatedCodeFile f => simp [AppStore.deliverToChannel, hsid f.session_id hn]

/-- C5 witness: joining the public session `s2` attaches only `s2`-scoped
channels, and a message notification tagged `s1` is not applied. -/
theorem joinSession_channel_exclusivity_witness :
    (AppStore.joinSession ⟨true, true, true, true, true⟩ exStore2 exState "s2").2.channels
        = AppStore.standardChannels exPublicSession.id "u1" ∧
    ∀ n : Notification, n.sessionId = "s1" → "s1" ≠ exPublicSession.id →
      AppStore.applyNotification
          (AppStore.joinSession ⟨true, true, true, true, true⟩ exStore2 exState "s2").2 n
        = (AppStore.joinSession ⟨true, true, true, true, true⟩ exStore2 exState "s2").2 :=
  joinSession_channel_exclusivity ⟨true, true, true, true, true⟩ exStore2 exState "s2" "u1"
    "s1" exPublicSession rfl rfl rfl (Or.inr (Or.inl rfl))

/-- C9: when the generate-code edge call fails, `generateCode("build a todo
app")` still terminates by inserting exactly one new CodeFile taken from the
"todo" keyword template (TodoApp.js for javascript, todo_app.py for python)
with a health score in [60,100], plus exactly one new AI message; and the
template picked by the fallback generator is a deterministic function of
keyword matching on the prompt (todo/task, calculator/math, else generic). -/
theorem generateCode_fallback_todo (r : Nat) (hr : r < 40) (store : Store) (st : AppState)
    (u : String) (cs : Session) (hu : st.user = some u) (hcs : st.currentSession = some cs) :
    (∃ file : CodeFile, ∃ msg : Message,
      (AppStore.generateCode false r true true store st "build a todo app").1.code_files
        = store.code_files ++ [file] ∧
      file.filename = (if cs.language == Lang.javascript then "TodoApp.js" else "todo_app.py") ∧
      file.content = (if cs.language == Lang.javascript then todoJsContent else todoPyContent) ∧
      60 ≤ file.health_score ∧ file.health_score ≤ 100 ∧
      (AppStore.generateCode false r true true store st "build a todo app").1.messages
        = store.messages ++ [msg] ∧
      msg.type = MsgType.ai) ∧
    (∀ (p : String) (lang : Lang),
        (jsIncludes (jsToLowerCase p) "todo" || jsIncludes (jsToLowerCase p) "task") = true →
        generateMockCode p lang = todoTemplate (lang == Lang.javascript)) ∧
    (∀ (p : String) (lang : Lang),
        (jsIncludes (jsToLowerCase p) "todo" || jsIncludes (jsToLowerCase p) "task") = false →
        (jsIncludes (jsToLowerCase p) "calculator"
          || jsIncludes (jsToLowerCase p) "math") = true →
        generateMockCode p lang = calculatorTemplate (lang == Lang.javascript)) ∧
    (∀ (p : String) (lang : Lang),
        (jsIncludes (jsToLowerCase p) "todo" || jsIncludes (jsToLowerCase p) "task") = false →
        (jsIncludes (jsToLowerCase p) "calculator"
          || jsIncludes (jsToLowerCase p) "math") = false →
        generateMockCode p lang = genericTemplate (lang == Lang.javascript)) := by
  have hsel : ∀ (p : String) (lang : Lang),
      (jsIncludes (jsToLowerCase p) "todo" || jsIncludes (jsToLowerCase p) "task") = true →
      generateMockCode p lang = todoTemplate (lang == Lang.javascript) := by
    intro p lang h
    simp [generateMockCode, h]
  refine ⟨?_, hsel, ?_, ?_⟩
  · have hcond : (jsIncludes (jsToLowerCase "build a todo app") "todo"
        || jsIncludes (jsToLowerCase "build a todo app") "task") = true := by decide
    have hsel2 := hsel "build a todo app" cs.language hcond
    refine ⟨{ id := toString store.nextId, session_id := cs.id,
              filename := (todoTemplate (cs.language == Lang.javascript)).filename,
              content := (todoTemplate (cs.language == Lang.javascript)).content,
              language := cs.language, created_at := store.now, updated_at := store.now,
              health_score := mockHealthScore r,
              issues := (todoTemplate (cs.language == Lang.javascript)).issues },
            { id := toString (store.nextId + 1), session_id := cs.id, user_id := u,
              content := "I've generated "
                ++ (todoTemplate (cs.language == Lang.javascript)).filename
                ++ " for you. The code includes "
                ++ (todoTemplate (cs.language == Lang.javascript)).description,
              type := MsgType.ai, created_at := store.now },
            ?_, rfl, rfl, ?_, ?_, ?_, rfl⟩
    · simp [AppStore.generateCode, AppStore.generateMockCodeAction, AppStore.sendMessage,
        hu, hcs, hsel2]
    · simp [mockHealthScore]
    · simp [mockHealthScore]
      omega
    · simp [AppStore.generateCode, AppStore.generateMockCodeAction, AppStore.sendMessage,
        hu, hcs, hsel2]
  · intro p lang h1 h2
    simp [generateMockCode, h1, h2]
  · intro p lang h1 h2
    simp [generateMockCode, h1, h2]

/-- C9 witness: the fallback run on the concrete joined fixture (javascript
session, random draw 5). -/
theorem generateCode_fallback_todo_witness :
    (∃ file : CodeFile, ∃ msg : Message,
      (AppStore.generateCode false 5 true true exStore exStateJoined
          "build a todo app").1.code_files
        = exStore.code_files ++ [file] ∧
      file.filename
        = (if exSession.language == Lang.javascript then "TodoApp.js" else "todo_app.py") ∧
      file.content
        = (if exSession.language == Lang.javascript then todoJsContent else todoPyContent) ∧
      60 ≤ file.health_score ∧ file.health_score ≤ 100 ∧
      (AppStore.generateCode false 5 true true exStore exStateJoined
          "build a todo app").1.messages
        = exStore.messages ++ [msg] ∧
      msg.type = MsgType.ai) ∧
    (∀ (p : String) (lang : Lang),
        (jsIncludes (jsToLowerCase p) "todo" || jsIncludes (jsToLowerCase p) "task") = true →
        generateMockCode p lang = todoTemplate (lang == Lang.javascript)) ∧
    (∀ (p : String) (lang : Lang),
        (jsIncludes (jsToLowerCase p) "todo" || jsIncludes (jsToLowerCase p) "task") = false →
        (jsIncludes (jsToLowerCase p) "calculator"
          || jsIncludes (jsToLowerCase p) "math") = true →
        generateMockCode p lang = calculatorTemplate (lang == Lang.javascript)) ∧
    (∀ (p : String) (lang : Lang),
        (jsIncludes (jsToLowerCase p) "todo" || jsIncludes (jsToLowerCase p) "task") = false →
        (jsIncludes (jsToLowerCase p) "calculator"
          || jsIncludes (jsToLowerCase p) "math") = false →
        generateMockCode p lang = genericTemplate (lang == Lang.javascript)) :=
  generateCode_fallback_todo 5 (by decide) exStore exStateJoined "u1" exSession rfl rfl

/-- The upsert conflict key ignores the row's role. -/
theorem participantKey_set_role (sid u : String) (p : SessionParticipant) :
    participantKey sid u { p with role := Role.developer } = participantKey sid u p := rfl

/-- The freshly inserted row matches the conflict key. -/
theorem participantKey_newRow (store : Store) (sid u : String) :
    participantKey sid u (newParticipantRow store sid u) = true := by
  simp [participantKey, newParticipantRow]

/-- After an upsert for `(sid, u)`, a row matching the key exists. -/
theorem upsert_has_key (store : Store) (sid u : String) :
    (upsertParticipant store sid u).session_participants.any (participantKey sid u)
      = true := by
  unfold upsertParticipant
  cases hany : store.session_participants.any (participantKey sid u) with
  | true =>
      simp only [hany, if_true]
      obtain ⟨p, hp, hkey⟩ := List.any_eq_true.mp hany
      refine List.any_eq_true.mpr ⟨_, List.mem_map_of_mem _ hp, ?_⟩
      simp only [upsertRow, hkey, if_true, participantKey_set_role]
  | false =>
      simp only [hany, Bool.false_eq_true, if_false]
      simp [participantKey_newRow]

/-- A list on which the predicate holds somewhere has a successful find. -/
theorem find?_isNone_eq_false {α : Type _} (p : α → Bool) (l : List α)
    (h : l.any p = true) : (l.find? p).isNone = false := by
  cases hf : l.find? p with
  | none =>
      rw [List.find?_eq_none] at hf
      obtain ⟨x, hx, hpx⟩ := List.any_eq_true.mp h
      exact absurd hpx (hf x hx)
  | some a => rfl

/-- When a matching row exists the upsert is the conflict-update branch. -/
theorem upsert_eq_map (S : Store) (sid u : String)
    (h : S.session_participants.any (participantKey sid u) = true) :
    upsertParticipant S sid u =
      { S with session_participants := S.session_participants.map (upsertRow sid u) } := by
  unfold upsertParticipant
  simp only [h, if_true]

/-- The conflict-update function is idempotent on rows. -/
theorem upsertRow_idem (sid u : String) (p : SessionParticipant) :
    upsertRow sid u (upsertRow sid u p) = upsertRow sid u p := by
  unfold upsertRow
  by_cases hk : participantKey sid u p = true
  · simp only [hk, if_true, participantKey_set_role]
  · simp only [Bool.not_eq_true] at hk
    simp only [hk, Bool.false_eq_true, if_false]

/-- The conflict update fixes every row of an upserted list. -/
theorem upsertRow_fixes (store : Store) (sid u : String) :
    ∀ q ∈ (upsertParticipant store sid u).session_participants,
      upsertRow sid u q = q := by
  intro q
  unfold upsertParticipant
  cases hany : store.session_participants.any (participantKey sid u) with
  | true =>
      simp only [hany, if_true]
      intro hq
      obtain ⟨p, hp, rfl⟩ := List.mem_map.mp hq
      exact upsertRow_idem sid u p
  | false =>
      simp only [hany, Bool.false_eq_true, if_false]
      intro hq
      rcases List.mem_append.mp hq with hin | hnew
      · have hk : participantKey sid u q = false := by
          have := List.any_eq_false.mp hany q hin
          simpa using this
        simp [upsertRow, hk]
      · have hq' : q = newParticipantRow store sid u := by simpa using hnew
        subst hq'
        simp [upsertRow, participantKey_newRow, newParticipantRow]
/-- Upserting the same `(sid, u)` key twice equals upserting it once. -/
theorem upsert_idem (store : Store) (sid u : String) :
    upsertParticipant (upsertParticipant store sid u) sid u
      = upsertParticipant store sid u := by
  rw [upsert_eq_map _ sid u (upsert_has_key store sid u)]
  have hmap : (upsertParticipant store sid u).session_participants.map (upsertRow sid u)
      = (upsertParticipant store sid u).session_participants := by
    conv_rhs => rw [← List.map_id (upsertParticipant store sid u).session_participants]
    exact List.map_congr_left (upsertRow_fixes store sid u)
  rw [hmap]

/-- The upsert preserves "at most one row per conflict key". -/
theorem upsert_countP_le_one (store : Store) (sid u : String)
    (h : store.session_participants.countP (participantKey sid u) ≤ 1) :
    (upsertParticipant store sid u).session_participants.countP (participantKey sid u)
      ≤ 1 := by
  unfold upsertParticipant
  cases hany : store.session_participants.any (participantKey sid u) with
  | true =>
      simp only [hany, if_true]
      rw [List.countP_map]
      rw [List.countP_congr fun a _ => ?_]
      · exact h
      · show (participantKey sid u (upsertRow sid u a) = true ↔ participantKey sid u a = true)
        unfold upsertRow
        by_cases hk : participantKey sid u a = true
        · simp [hk, participantKey_set_role]
        · simp only [Bool.not_eq_true] at hk
          simp [hk]
  | false =>
      simp only [hany, Bool.false_eq_true, if_false]
      rw [List.countP_append]
      have h0 : store.session_participants.countP (participantKey sid u) = 0 :=
        List.countP_eq_zero.mpr (by
          intro a ha
          simpa using List.any_eq_false.mp hany a ha)
      rw [h0]
      simp [List.countP_cons, participantKey_newRow]

/-- The upsert does not touch the sessions table. -/
theorem upsert_sessions_eq (store : Store) (sid u : String) :
    (upsertParticipant store sid u).sessions = store.sessions := by
  unfold upsertParticipant
  split <;> rfl

/-- The join's store step does not touch the sessions table. -/
theorem joinStore_sessions_eq (ox : AppStore.JoinOutcomes) (store : Store)
    (sid u : String) (sess : Session) :
    (joinStore ox store sid u sess).sessions = store.sessions := by
  unfold joinStore
  split
  · split
    · exact upsert_sessions_eq store sid u
    · rfl
  · rfl

/-- C3: joining the same session twice with the same user is idempotent: the
second join returns exactly the store and state the first join produced (so
both joins expose the same SessionView), and because the participant
registration is an upsert keyed on `(session, user)`, at most one
participant row exists for the pair afterwards. -/
theorem joinSession_idempotent (store : Store) (st : AppState) (sid u : String)
    (hu : st.user = some u)
    (hcount : store.session_participants.countP (participantKey sid u) ≤ 1) :
    AppStore.joinSession ⟨true, true, true, true, true⟩
        (AppStore.joinSession ⟨true, true, true, true, true⟩ store st sid).1
        (AppStore.joinSession ⟨true, true, true, true, true⟩ store st sid).2 sid
      = AppStore.joinSession ⟨true, true, true, true, true⟩ store st sid ∧
    (AppStore.joinSession ⟨true, true, true, true, true⟩ store st sid).1.session_participants.countP
        (participantKey sid u) ≤ 1 := by
  cases hfind : findSession store sid with
  | none =>
      have h1 : AppStore.joinSession ⟨true, true, true, true, true⟩ store st sid
          = (store, { st with isLoading := false, error := some "Session not found or access denied" }) := by
        unfold AppStore.joinSession
        rw [hu]
        simp [hfind]
      have hu2 : ({ st with isLoading := false, error := some "Session not found or access denied" } : AppState).user = some u := hu
      have h2 : AppStore.joinSession ⟨true, true, true, true, true⟩ store
          { st with isLoading := false, error := some "Session not found or access denied" } sid
          = (store, { st with isLoading := false, error := some "Session not found or access denied" }) := by
        unfold AppStore.joinSession
        rw [hu2]
        simp [hfind]
      rw [h1]
      exact ⟨h2, hcount⟩
  | some sess =>
      by_cases hden : (!(sess.owner_id == u || sess.is_public)
          && (findParticipant store sid u).isNone) = true
      · have h1 := joinSession_denied_eq ⟨true, true, true, true, true⟩ store st sid u sess
          hu rfl hfind hden
        have hu2 : ({ st with isLoading := false, error := some "You do not have access to this session" } : AppState).user = some u := hu
        have h2 := joinSession_denied_eq ⟨true, true, true, true, true⟩ store
          { st with isLoading := false, error := some "You do not have access to this session" } sid u sess
          hu2 rfl hfind hden
        rw [h1]
        exact ⟨h2, hcount⟩
      · have hden' : (!(sess.owner_id == u || sess.is_public)
            && (findParticipant store sid u).isNone) = false := by
          cases h : (!(sess.owner_id == u || sess.is_public)
              && (findParticipant store sid u).isNone) with
          | true => exact absurd h hden
          | false => rfl
        have h1 := joinSession_success_eq ⟨true, true, true, true, true⟩ store st sid u sess
          hu rfl hfind hden'
        have hu2 : (joinView ⟨true, true, true, true, true⟩
            (joinStore ⟨true, true, true, true, true⟩ store sid u sess) st sid u sess).user
            = some u := hu
        have hfind2 : findSession (joinStore ⟨true, true, true, true, true⟩ store sid u sess)
            sid = some sess := by
          unfold findSession
          rw [joinStore_sessions_eq]
          exact hfind
        have hden2 : (!(sess.owner_id == u || sess.is_public)
            && (findParticipant (joinStore ⟨true, true, true, true, true⟩ store sid u sess)
                  sid u).isNone) = false := by
          by_cases hca : (sess.owner_id == u || sess.is_public) = true
          · simp [hca]
          · have hca' : (sess.owner_id == u || sess.is_public) = false := by
              cases h : (sess.owner_id == u || sess.is_public) with
              | true => exact absurd h hca
              | false => rfl
            have hown : (sess.owner_id != u) = true := by
              have h1' : (sess.owner_id == u) = false := by
                rcases Bool.or_eq_false_iff.mp hca' with ⟨h1', _⟩
                exact h1'
              simp [bne, h1']
            have hS1e : joinStore ⟨true, true, true, true, true⟩ store sid u sess
                = upsertParticipant store sid u := by
              unfold joinStore
              simp [hown]
            have hisNone2 : (findParticipant
                (joinStore ⟨true, true, true, true, true⟩ store sid u sess) sid u).isNone
                = false := by
              rw [hS1e]
              unfold findParticipant
              exact find?_isNone_eq_false _ _ (upsert_has_key store sid u)
            simp [hisNone2]
        have h2 := joinSession_success_eq ⟨true, true, true, true, true⟩
          (joinStore ⟨true, true, true, true, true⟩ store sid u sess)
          (joinView ⟨true, true, true, true, true⟩
            (joinStore ⟨true, true, true, true, true⟩ store sid u sess) st sid u sess)
          sid u sess hu2 rfl hfind2 hden2
        have hSS : joinStore ⟨true, true, true, true, true⟩
            (joinStore ⟨true, true, true, true, true⟩ store sid u sess) sid u sess
            = joinStore ⟨true, true, true, true, true⟩ store sid u sess := by
          by_cases how : (sess.owner_id != u) = true
          · have hS1e : joinStore ⟨true, true, true, true, true⟩ store sid u sess
                = upsertParticipant store sid u := by
              unfold joinStore
              simp [how]
            rw [hS1e]
            unfold joinStore
            simp [how, upsert_idem]
          · have how' : (sess.owner_id != u) = false := by
              cases h : (sess.owner_id != u) with
              | true => exact absurd h how
              | false => rfl
            unfold joinStore
            simp [how']
        rw [h1]
        constructor
        · rw [h2, hSS]
          rfl
        · by_cases how : (sess.owner_id != u) = true
          · have hS1e : joinStore ⟨true, true, true, true, true⟩ store sid u sess
                = upsertParticipant store sid u := by
              unfold joinStore
              simp [how]
            rw [hS1e]
            exact upsert_countP_le_one store sid u hcount
          · have how' : (sess.owner_id != u) = false := by
              cases h : (sess.owner_id != u) with
              | true => exact absurd h how
              | false => rfl
            unfold joinStore
            simp [how']
            exact hcount

/-- C3 witness: double join of the public demo session by `u1`. -/
theorem joinSession_idempotent_witness :
    AppStore.joinSession ⟨true, true, true, true, true⟩
        (AppStore.joinSession ⟨true, true, true, true, true⟩ exStore2 exState "s2").1
        (AppStore.joinSession ⟨true, true, true, true, true⟩ exStore2 exState "s2").2 "s2"
      = AppStore.joinSession ⟨true, true, true, true, true⟩ exStore2 exState "s2" ∧
    (AppStore.joinSession ⟨true, true, true, true, true⟩
        exStore2 exState "s2").1.session_participants.countP
        (participantKey "s2" "u1") ≤ 1 :=
  joinSession_idempotent exStore2 exState "s2" "u1" rfl (by decide)

/-- Ids present after the deduplicating combine are exactly the ids of the
accumulator plus the ids of the appended list. -/
theorem combine_ids_mem (l : List Session) (acc : List Session) (x : String) :
    (x ∈ (l.foldl (fun acc s =>
        if (acc.find? (fun t => t.id == s.id)).isNone then acc ++ [s] else acc) acc).map
          (fun s => s.id))
    ↔ x ∈ acc.map (fun s => s.id) ∨ x ∈ l.map (fun s => s.id) := by
  induction l generalizing acc with
  | nil => simp
  | cons s l ih =>
      rw [List.foldl_cons, ih]
      cases hfind : (acc.find? (fun t => t.id == s.id)).isNone with
      | true =>
          simp only [hfind, if_true, List.map_append, List.mem_append, List.map_cons,
            List.mem_cons, List.map_nil, List.mem_singleton]
          tauto
      | false =>
          simp only [hfind, Bool.false_eq_true, if_false, List.map_cons, List.mem_cons]
          have hsid : s.id ∈ acc.map (fun t => t.id) := by
            cases hf : acc.find? (fun t => t.id == s.id) with
            | none => rw [hf] at hfind; simp at hfind
            | some t =>
                have hkey := List.find?_some hf
                have hmem := List.mem_of_find?_eq_some hf
                exact beq_iff_eq.mp hkey ▸ List.mem_map_of_mem _ hmem
          constructor
          · intro h
            rcases h with h | h
            · exact Or.inl h
            · exact Or.inr (Or.inr h)
          · intro h
            rcases h with h | h | h
            · exact Or.inl h
            · rw [h]; exact Or.inl hsid
            · exact Or.inr h

/-- The deduplicating combine preserves distinctness of ids. -/
theorem combine_ids_nodup (l : List Session) (acc : List Session)
    (hacc : (acc.map (fun s => s.id)).Nodup) :
    (((l.foldl (fun acc s =>
        if (acc.find? (fun t => t.id == s.id)).isNone then acc ++ [s] else acc) acc).map
          (fun s => s.id)).Nodup) := by
  induction l generalizing acc with
  | nil => simpa
  | cons s l ih =>
      rw [List.foldl_cons]
      apply ih
      cases hfind : (acc.find? (fun t => t.id == s.id)).isNone with
      | false => simpa [hfind]
      | true =>
          simp only [hfind, if_true, List.map_append, List.map_cons, List.map_nil]
          refine List.Nodup.append hacc (List.nodup_singleton _) ?_
          intro a ha hb
          simp only [List.mem_singleton] at hb
          subst hb
          rw [Option.isNone_iff_eq_none, List.find?_eq_none] at hfind
          obtain ⟨t, ht, hid⟩ := List.mem_map.mp ha
          exact hfind t ht (by simp [hid])

/-- A sort keeps ids distinct. -/
theorem ids_nodup_mergeSort (l : List Session) (le : Session → Session → Bool)
    (h : (l.map (fun s => s.id)).Nodup) :
    ((l.mergeSort le).map (fun s => s.id)).Nodup :=
  (((l.mergeSort_perm le).map (fun s => s.id)).symm).nodup h

/-- C6: with both queries succeeding, `loadSessions` installs the union by
identifier of the sessions owned by the user and the sessions the user
participates in — with distinct identifiers even when the user is both owner
and participant — sorted descending by update timestamp; and if either query
fails the whole call fails and the session list is left untouched. -/
theorem loadSessions_spec (store : Store) (st : AppState) (u : String)
    (hu : st.user = some u)
    (hnodup : (store.sessions.map (fun s => s.id)).Nodup) :
    (((AppStore.loadSessions true true store st).sessions.map (fun s => s.id)).Nodup ∧
     (∀ x : String,
        x ∈ (AppStore.loadSessions true true store st).sessions.map (fun s => s.id) ↔
          (∃ s ∈ store.sessions, s.owner_id = u ∧ s.id = x) ∨
          (∃ p ∈ store.session_participants, p.user_id = u ∧
             ∃ s, findSession store p.session_id = some s ∧ s.id = x)) ∧
     (AppStore.loadSessions true true store st).sessions.Pairwise
        (fun a b => b.updated_at ≤ a.updated_at)) ∧
    (∀ ownedOk participantOk : Bool, ownedOk = false ∨ participantOk = false →
       (AppStore.loadSessions ownedOk participantOk store st).sessions = st.sessions) := by
  have hsessions : (AppStore.loadSessions true true store st).sessions
      = (((store.session_participants.filter (fun p => p.user_id == u)).filterMap
            (fun p => findSession store p.session_id)).foldl
          (fun acc s =>
            if (acc.find? (fun t => t.id == s.id)).isNone then acc ++ [s] else acc)
          ((store.sessions.filter (fun s => s.owner_id == u)).mergeSort
            AppStore.updatedAtDesc)).mergeSort AppStore.updatedAtDesc := by
    unfold AppStore.loadSessions
    rw [hu]
    rfl
  have howned : (((store.sessions.filter (fun s => s.owner_id == u)).mergeSort
      AppStore.updatedAtDesc).map (fun s => s.id)).Nodup := by
    apply ids_nodup_mergeSort
    exact List.Nodup.sublist ((List.filter_sublist store.sessions).map (fun s => s.id)) hnodup
  refine ⟨⟨?_, ?_, ?_⟩, ?_⟩
  · rw [hsessions]
    apply ids_nodup_mergeSort
    exact combine_ids_nodup _ _ howned
  · intro x
    rw [hsessions]
    rw [(((((store.session_participants.filter (fun p => p.user_id == u)).filterMap
            (fun p => findSession store p.session_id)).foldl
          (fun acc s =>
            if (acc.find? (fun t => t.id == s.id)).isNone then acc ++ [s] else acc)
          ((store.sessions.filter (fun s => s.owner_id == u)).mergeSort
            AppStore.updatedAtDesc)).mergeSort_perm AppStore.updatedAtDesc).map
          (fun s => s.id)).mem_iff]
    rw [combine_ids_mem]
    constructor
    · intro h
      rcases h with h | h
      · obtain ⟨s, hs, hid⟩ := List.mem_map.mp h
        rw [List.mem_mergeSort, List.mem_filter] at hs
        exact Or.inl ⟨s, hs.1, beq_iff_eq.mp hs.2, hid⟩
      · obtain ⟨s, hs, hid⟩ := List.mem_map.mp h
        obtain ⟨p, hp, hfp⟩ := List.mem_filterMap.mp hs
        rw [List.mem_filter] at hp
        exact Or.inr ⟨p, hp.1, beq_iff_eq.mp hp.2, s, hfp, hid⟩
    · intro h
      rcases h with ⟨s, hs, hown, hid⟩ | ⟨p, hp, hpu, s, hfp, hid⟩
      · refine Or.inl (List.mem_map.mpr ⟨s, ?_, hid⟩)
        rw [List.mem_mergeSort, List.mem_filter]
        exact ⟨hs, beq_iff_eq.mpr hown⟩
      · refine Or.inr (List.mem_map.mpr ⟨s, ?_, hid⟩)
        refine List.mem_filterMap.mpr ⟨p, ?_, hfp⟩
        rw [List.mem_filter]
        exact ⟨hp, beq_iff_eq.mpr hpu⟩
  · rw [hsessions]
    have htrans : ∀ a b c : Session, AppStore.updatedAtDesc a b = true →
        AppStore.updatedAtDesc b c = true → AppStore.updatedAtDesc a c = true := by
      intro a b c hab hbc
      simp only [AppStore.updatedAtDesc, decide_eq_true_eq] at *
      omega
    have htotal : ∀ a b : Session,
        (AppStore.updatedAtDesc a b || AppStore.updatedAtDesc b a) = true := by
      intro a b
      simp only [AppStore.updatedAtDesc, Bool.or_eq_true, decide_eq_true_eq]
      omega
    exact (List.sorted_mergeSort htrans htotal _).imp (fun h => of_decide_eq_true h)
  · intro ownedOk participantOk h
    rcases h with h | h
    · subst h
      unfold AppStore.loadSessions
      rw [hu]
      rfl
    · subst h
      cases ownedOk with
      | false =>
          unfold AppStore.loadSessions
          rw [hu]
          rfl
      | true =>
          unfold AppStore.loadSessions
          rw [hu]
          rfl

/-- C6 witness: `u1` owns one session and participates in another in the
concrete store; both queries succeeding yields a deduplicated descending
list, and a failing query leaves the list untouched. -/
theorem loadSessions_spec_witness :
    (((AppStore.loadSessions true true exStore3 exState).sessions.map
        (fun s => s.id)).Nodup ∧
     (∀ x : String,
        x ∈ (AppStore.loadSessions true true exStore3 exState).sessions.map
            (fun s => s.id) ↔
          (∃ s ∈ exStore3.sessions, s.owner_id = "u1" ∧ s.id = x) ∨
          (∃ p ∈ exStore3.session_participants, p.user_id = "u1" ∧
             ∃ s, findSession exStore3 p.session_id = some s ∧ s.id = x)) ∧
     (AppStore.loadSessions true true exStore3 exState).sessions.Pairwise
        (fun a b => b.updated_at ≤ a.updated_at)) ∧
    (∀ ownedOk participantOk : Bool, ownedOk = false ∨ participantOk = false →
       (AppStore.loadSessions ownedOk participantOk exStore3 exState).sessions
         = exState.sessions) :=
  loadSessions_spec exStore3 exState "u1" rfl (by decide)
